import Mathlib

/-!
Shallow embedding of the conversational intake-and-grading bot in `src/main.py`:
the per-user state machine, the daily-quota gate, the input resolver and the
evaluation orchestrator.  Pure data is carried explicitly: the durable user row
is a `User` record (the `users` table row), the ephemeral conversation draft is
a `Draft` (the `context.user_data` dict), downloaded image files are a list of
paths, and the two external collaborators (OCR, Gemini) are parameters giving
the outcome of each call.
-/

/-- Python string comparison (`<` on `str`) on character lists: lexicographic by
code point, a strict prefix is smaller. -/
def pyStrLtChars : List Char → List Char → Bool
  | [], [] => false
  | [], _ :: _ => true
  | _ :: _, [] => false
  | a :: as, b :: bs => if a = b then pyStrLtChars as bs else decide (a < b)

/-- Python `s1 < s2` on strings (used by `today > row["last_submission_date"]`). -/
def pyStrLt (s t : String) : Bool := pyStrLtChars s.data t.data

/-- Python `s.strip()`: remove leading and trailing whitespace. -/
def pyStrip (s : String) : String :=
  ⟨((s.data.dropWhile Char.isWhitespace).reverse.dropWhile Char.isWhitespace).reverse⟩

/-- Python slicing `s[:n]`: the first `n` characters of `s`. -/
def pyTake (s : String) (n : Nat) : String := ⟨s.data.take n⟩

/-- The `users` table row (`CREATE TABLE users` in `init_db`): registration
fields and per-day quota state.  `last_submission_date` is a TEXT column holding
a `%Y-%m-%d` string, NULL until first set. -/
structure User where
  full_name : Option String
  phone_number : Option String
  region : Option String
  last_submission_date : Option String
  task1_submitted : Bool
  task2_submitted : Bool
deriving DecidableEq

/-- A fresh row inserted by `create_user`: only `user_id` is set, all other
columns default (NULL / FALSE). -/
def defaultUser : User := ⟨none, none, none, none, false, false⟩

/-- `create_user`: `INSERT ... ON CONFLICT (user_id) DO NOTHING` — create the
row if absent, keep the existing row otherwise. -/
def create_user (store : Option User) : Option User := some (store.getD defaultUser)

/-- The conversation states of `main.py`: `NAME, PHONE, REGION = range(3)`,
`TASK_SELECT, QUESTION, ANSWER, CONFIRM_Q, CONFIRM_A = range(3, 8)`, and
`ConversationHandler.END`. -/
inductive ConvState where
  | NAME
  | PHONE
  | REGION
  | TASK_SELECT
  | QUESTION
  | ANSWER
  | CONFIRM_Q
  | CONFIRM_A
  | END
deriving DecidableEq

/-- The ephemeral per-user draft held in `context.user_data`. -/
structure Draft where
  task : Option String
  question : Option String
  answer : Option String
deriving DecidableEq

/-- The fixed 14-item region list (`regions` in `main.py`). -/
def regions : List String :=
  ["Tashkent", "Andijan", "Fergana", "Namangan", "Samarkand", "Bukhara",
   "Navoi", "Kashkadarya", "Surkhandarya", "Jizzakh", "Sirdarya", "Khorezm",
   "Karakalpakstan", "Other"]

/-- Default `ADMIN_IDS` (`os.getenv("ADMIN_IDS", "5103279067")`). -/
def ADMIN_IDS : List Nat := [5103279067]

/-- The reset condition of `reset_limits_if_needed` for an existing row:
Python `not row["last_submission_date"] or today > row["last_submission_date"]`
(a NULL or empty stored date is falsy; otherwise string comparison). -/
def needsReset (last : Option String) (today : String) : Bool :=
  match last with
  | none => true
  | some s => (s == "") || pyStrLt s today

/-- `reset_limits_if_needed`: if the stored date is unset or the current UTC
date string compares greater, set `last_submission_date` to today and clear both
task flags; otherwise leave the row unchanged. -/
def reset_limits_if_needed (today : String) (u : User) : User :=
  if needsReset u.last_submission_date today then
    { u with last_submission_date := some today,
             task1_submitted := false, task2_submitted := false }
  else u

/-- The quota check performed in `choose_task` (negation of the denial
condition `(task == "Task 1" and stat["task1_submitted"]) or
(task == "Task 2" and stat["task2_submitted"])`). -/
def can_submit (task : String) (u : User) : Bool :=
  !((task == "Task 1" && u.task1_submitted) || (task == "Task 2" && u.task2_submitted))

/-- `update_task_submission`: choose the column
(`"task1_submitted" if task == "Task 1" else "task2_submitted"`) and set it TRUE. -/
def update_task_submission (task : String) (u : User) : User :=
  if task == "Task 1" then { u with task1_submitted := true }
  else { u with task2_submitted := true }

/-- `extract_text_from_image`: the OCR collaborator outcome is `some text`
(success) or `none` (any exception inside the `try`).  On success the file is
removed (`os.remove` runs); on an exception the handler returns `None` before
reaching `os.remove`, so the file list is unchanged. -/
def extract_text_from_image (ocr : Option String) (fs : List String)
    (file_path : String) : Option String × List String :=
  match ocr with
  | some t => (some t, fs.erase file_path)
  | none => (none, fs)

/-- The fixed user-facing apology returned after all retries fail. -/
def apologyText : String := "❌ Gemini API error after retries. Please try again later."

/-- Observable trace of one `evaluate_with_gemini` run: the returned text, how
many collaborator calls were made, how many warnings were logged, and the total
seconds slept (`asyncio.sleep(2)` after each failed call). -/
structure EvalTrace where
  result : String
  calls : Nat
  warnings : Nat
  sleepSeconds : Nat
deriving DecidableEq

/-- The prompt f-string of `evaluate_with_gemini` (an empty question is falsy in
Python, so the `[Image Attached]` placeholder is substituted). -/
def buildPrompt (question answer : String) : String :=
  "\nYou are an IELTS Academic Writing evaluator. You are responding through a Telegram bot.\nKeep your message under 4000 characters to avoid errors.\nUse Markdown formatting only where necessary and avoid long bullet lists.\n\nQuestion: "
    ++ (if question == "" then "[Image Attached]" else question)
    ++ "\nAnswer: " ++ answer
    ++ "\n\nScore and comment each:\n- Task Achievement\n- Coherence and Cohesion\n- Lexical Resource\n- Grammar\n"

/-- The retry loop `for attempt in range(retries)` of `evaluate_with_gemini`:
`gen a` is the collaborator outcome of the call made at loop index `a`
(`some text` for a normal return, `none` for an exception).  A successful call
returns `response.text[:4000]`; a failed call logs one warning, sleeps 2
seconds and retries; falling out of the loop returns the apology text. -/
def evalAttempts (gen : Nat → Option String) : Nat → Nat → EvalTrace
  | _, 0 => { result := apologyText, calls := 0, warnings := 0, sleepSeconds := 0 }
  | attempt, n + 1 =>
    match gen attempt with
    | some t => { result := pyTake t 4000, calls := 1, warnings := 0, sleepSeconds := 0 }
    | none =>
      let r := evalAttempts gen (attempt + 1) n
      { result := r.result, calls := r.calls + 1, warnings := r.warnings + 1,
        sleepSeconds := r.sleepSeconds + 2 }

/-- `evaluate_with_gemini(task_type, question, answer)` with the default
`retries=3` (no caller overrides it).  `gen prompt a` is the collaborator's
outcome for the call with that prompt at loop index `a`. -/
def evaluate_with_gemini (gen : String → Nat → Option String)
    (task_type question answer : String) : EvalTrace :=
  evalAttempts (gen (buildPrompt question answer)) 0 3

/-- `/start` handler: create the row if absent and enter `NAME`. -/
def start (store : Option User) : Option User × ConvState := (create_user store, .NAME)

/-- `get_region`: strip the inbound text; if it is not one of the fixed region
values, re-prompt and stay in `REGION`; otherwise store it as the user's region
and end the registration conversation. -/
def get_region (text : String) (u : User) : User × ConvState :=
  let region := pyStrip text
  if region ∈ regions then ({ u with region := some region }, .END)
  else (u, .REGION)

/-- `choose_task`: stores the task label in the draft, then, unless the user is
an admin, freshens the quota (`reset_limits_if_needed`, a no-op when no row
exists) and reads the row back (`get_user_status`); if no row exists the
subscript `stat["task1_submitted"]` raises (modelled as `.error ()`); if the
flag for the chosen task is set the flow is denied back to `END`; otherwise the
flow proceeds to `QUESTION`. -/
def choose_task (adminIds : List Nat) (today : String) (user_id : Nat)
    (task : String) (store : Option User) (d : Draft) :
    Except Unit (Option User × Draft × ConvState) :=
  let d' := { d with task := some task }
  if user_id ∈ adminIds then .ok (store, d', .QUESTION)
  else
    match store.map (reset_limits_if_needed today) with
    | none => .error ()
    | some u =>
      if (task == "Task 1" && u.task1_submitted) || (task == "Task 2" && u.task2_submitted) then
        .ok (some u, d', .END)
      else
        .ok (some u, d', .QUESTION)

/-- Path of a downloaded question image (`f"q_{user_id}.jpg"`). -/
def qPath (user_id : Nat) : String := "q_" ++ toString user_id ++ ".jpg"

/-- Path of a downloaded answer image (`f"a_{user_id}.jpg"`). -/
def aPath (user_id : Nat) : String := "a_" ++ toString user_id ++ ".jpg"

/-- An inbound message in the task flow: plain text or a photo. -/
inductive MsgInput where
  | text (s : String)
  | photo
deriving DecidableEq

/-- `get_question`: a photo is downloaded to `q_{id}.jpg` (never extracted nor
deleted) and the sentinel question is stored; text is stripped, an empty result
re-prompts in `QUESTION`, otherwise the stripped text is stored and the flow
moves to `ANSWER`.  Returns (draft, next state, files on disk). -/
def get_question (user_id : Nat) (msg : MsgInput) (fs : List String) (d : Draft) :
    Draft × ConvState × List String :=
  match msg with
  | .photo => ({ d with question := some "[Image Attached]" }, .ANSWER, qPath user_id :: fs)
  | .text s =>
    let t := pyStrip s
    if t = "" then (d, .QUESTION, fs)
    else ({ d with question := some t }, .ANSWER, fs)

/-- `get_answer`: a photo is downloaded to `a_{id}.jpg` and run through
`extract_text_from_image` (`ocr` is the OCR outcome); text is stripped.  A falsy
result (`None` or `""`) re-prompts in `ANSWER`; otherwise the text is stored and
the flow moves to `CONFIRM_A`.  Returns (draft, next state, files on disk). -/
def get_answer (user_id : Nat) (msg : MsgInput) (ocr : Option String)
    (fs : List String) (d : Draft) : Draft × ConvState × List String :=
  match msg with
  | .photo =>
    let fs1 := aPath user_id :: fs
    match extract_text_from_image ocr fs1 (aPath user_id) with
    | (none, fs2) => (d, .ANSWER, fs2)
    | (some t, fs2) =>
      if t = "" then (d, .ANSWER, fs2)
      else ({ d with answer := some t }, .CONFIRM_A, fs2)
  | .text s =>
    let t := pyStrip s
    if t = "" then (d, .ANSWER, fs)
    else ({ d with answer := some t }, .CONFIRM_A, fs)

/-- `confirm_answer`: on callback data `confirm_a_no` return to `ANSWER` with
nothing evaluated; on any other confirmed callback (`confirm_a_yes`) run the
evaluation, then unconditionally mark the task submitted, deliver the result
text, and end the conversation. -/
def confirm_answer (gen : String → Nat → Option String) (data : String)
    (d : Draft) (u : User) : User × ConvState × Option String :=
  if data == "confirm_a_no" then (u, .ANSWER, none)
  else
    let task := d.task.getD "Unknown"
    let question := d.question.getD ""
    let answer := d.answer.getD ""
    let tr := evaluate_with_gemini gen task question answer
    (update_task_submission task u, .END, some tr.result)

/-- ASCII digit character, as produced by `strftime` (`'0'` is code point 48). -/
def digitChar (n : Nat) : Char := Char.ofNat (48 + n)

/-- A UTC calendar date as numbers, the value formatted by
`datetime.now(timezone.utc).strftime("%Y-%m-%d")`. -/
structure UtcDate where
  year : Nat
  month : Nat
  day : Nat
deriving DecidableEq

/-- The ten characters of the zero-padded `%Y-%m-%d` rendering. -/
def UtcDate.isoChars (a : UtcDate) : List Char :=
  [digitChar (a.year / 1000 % 10), digitChar (a.year / 100 % 10),
   digitChar (a.year / 10 % 10), digitChar (a.year % 10), '-',
   digitChar (a.month / 10 % 10), digitChar (a.month % 10), '-',
   digitChar (a.day / 10 % 10), digitChar (a.day % 10)]

/-- The `%Y-%m-%d` string of a date. -/
def UtcDate.iso (a : UtcDate) : String := ⟨a.isoChars⟩

/-- Ranges within which `strftime` zero-pads each component to its full width. -/
def UtcDate.validBounds (a : UtcDate) : Prop :=
  a.year < 10000 ∧ 0 < a.month ∧ a.month ≤ 12 ∧ 0 < a.day ∧ a.day ≤ 31

instance (a : UtcDate) : Decidable a.validBounds := by
  unfold UtcDate.validBounds; infer_instance

/-- Calendar order: `a` is a strictly earlier date than `b`. -/
def UtcDate.earlier (a b : UtcDate) : Prop :=
  a.year < b.year ∨ (a.year = b.year ∧
    (a.month < b.month ∨ (a.month = b.month ∧ a.day < b.day)))

instance (a b : UtcDate) : Decidable (a.earlier b) := by
  unfold UtcDate.earlier; infer_instance

/-- A two-digit zero-padded block of the `%Y-%m-%d` rendering. -/
def d2 (n : Nat) : List Char := [digitChar (n / 10 % 10), digitChar (n % 10)]

/-! ## Helper lemmas -/

/-- Full case analysis of the three-attempt retry loop. -/
theorem evalAttempts_0_3 (g : Nat → Option String) :
    evalAttempts g 0 3 =
      match g 0 with
      | some t => { result := pyTake t 4000, calls := 1, warnings := 0, sleepSeconds := 0 }
      | none =>
        match g 1 with
        | some t => { result := pyTake t 4000, calls := 2, warnings := 1, sleepSeconds := 2 }
        | none =>
          match g 2 with
          | some t => { result := pyTake t 4000, calls := 3, warnings := 2, sleepSeconds := 4 }
          | none => { result := apologyText, calls := 3, warnings := 3, sleepSeconds := 6 } := by
  cases h0 : g 0 <;> cases h1 : g 1 <;> cases h2 : g 2 <;>
    simp [evalAttempts, h0, h1, h2]

/-- Stripping yields the empty string exactly when every character is whitespace. -/
theorem pyStrip_eq_empty_iff (s : String) :
    pyStrip s = "" ↔ ∀ c ∈ s.data, c.isWhitespace := by
  have hmem : (∀ c ∈ s.data.dropWhile Char.isWhitespace, c.isWhitespace = true) ↔
      (∀ c ∈ s.data, c.isWhitespace = true) := by
    constructor
    · intro h c hc
      rw [← List.takeWhile_append_dropWhile (p := Char.isWhitespace) (l := s.data)] at hc
      rcases List.mem_append.mp hc with h1 | h2
      · exact List.mem_takeWhile_imp h1
      · exact h c h2
    · intro h c hc
      refine h c ?_
      rw [← List.takeWhile_append_dropWhile (p := Char.isWhitespace) (l := s.data)]
      exact List.mem_append.mpr (Or.inr hc)
  constructor
  · intro h
    have hl := congrArg String.data h
    simp only [pyStrip] at hl
    rw [List.reverse_eq_nil_iff, List.dropWhile_eq_nil_iff] at hl
    refine hmem.mp fun c hc => hl c ?_
    exact List.mem_reverse.mpr hc
  · intro h
    have : (s.data.dropWhile Char.isWhitespace).reverse.dropWhile Char.isWhitespace = [] := by
      rw [List.dropWhile_eq_nil_iff]
      intro c hc
      exact hmem.mpr h c (List.mem_reverse.mp hc)
    simp only [pyStrip, this, List.reverse_nil]

/-! ## Claims -/

/-- C10: `update_task_submission` maps the label `"Task 1"` to the
`task1_submitted` column and every other task string (including `"Task 2"` and
unexpected values such as `"Unknown"`) to the `task2_submitted` column. -/
theorem update_task_submission_mapping (u : User) :
    update_task_submission "Task 1" u = { u with task1_submitted := true } ∧
    update_task_submission "Task 2" u = { u with task2_submitted := true } ∧
    ∀ task : String, task ≠ "Task 1" →
      update_task_submission task u = { u with task2_submitted := true } := by
  refine ⟨rfl, rfl, fun task h => ?_⟩
  have hb : (task == "Task 1") = false := beq_eq_false_iff_ne.mpr h
  simp [update_task_submission, hb]

/-- Witness for C10 at the unexpected task string `"Unknown"`. -/
theorem update_task_submission_mapping_witness :
    update_task_submission "Unknown" defaultUser = { defaultUser with task2_submitted := true } :=
  (update_task_submission_mapping defaultUser).2.2 "Unknown" (by decide)

/-- C6: in `AwaitRegion` an inbound message is accepted exactly on an exact
match with one of the 14 fixed region values: on match the region is stored and
the flow ends; otherwise the state stays `REGION` and the user row is unchanged.
`"Tashkent"` advances, `"Mars"` stays. -/
theorem get_region_exact_match (u : User) (text : String) :
    (pyStrip text ∈ regions →
       get_region text u = ({ u with region := some (pyStrip text) }, .END)) ∧
    (pyStrip text ∉ regions → get_region text u = (u, .REGION)) ∧
    regions.length = 14 ∧
    get_region "Tashkent" u = ({ u with region := some "Tashkent" }, .END) ∧
    get_region "Mars" u = (u, .REGION) := by
  refine ⟨fun h => ?_, fun h => ?_, rfl, ?_, ?_⟩
  · simp [get_region, h]
  · simp [get_region, h]
  · have h1 : pyStrip "Tashkent" = "Tashkent" := rfl
    have h2 : "Tashkent" ∈ regions := by decide
    simp [get_region, h1, h2]
  · have h1 : pyStrip "Mars" = "Mars" := rfl
    have h2 : "Mars" ∉ regions := by decide
    simp [get_region, h1, h2]

/-- Witness for C6: the accepted input `"Tashkent"` with a fresh user row. -/
theorem get_region_exact_match_witness :
    get_region "Tashkent" defaultUser = ({ defaultUser with region := some (pyStrip "Tashkent") }, .END) :=
  (get_region_exact_match defaultUser "Tashkent").1 (by decide)

/-- C5: for an admin identity the quota check is bypassed unconditionally:
`choose_task` proceeds straight to `QUESTION` with the stored row untouched (no
freshening, no denial), whatever the stored date and flags — even with no row. -/
theorem admin_bypasses_quota (adminIds : List Nat) (today : String) (user_id : Nat)
    (task : String) (store : Option User) (d : Draft) (h : user_id ∈ adminIds) :
    choose_task adminIds today user_id task store d =
      .ok (store, { d with task := some task }, .QUESTION) := by
  simp [choose_task, h]

/-- Witness for C5: the default admin id with both flags already set today. -/
theorem admin_bypasses_quota_witness :
    choose_task ADMIN_IDS "2026-10-12" 5103279067 "Task 1"
        (some ⟨none, none, none, some "2026-10-12", true, true⟩) ⟨none, none, none⟩ =
      .ok (some ⟨none, none, none, some "2026-10-12", true, true⟩,
           { task := some "Task 1", question := none, answer := none }, .QUESTION) :=
  admin_bypasses_quota ADMIN_IDS "2026-10-12" 5103279067 "Task 1"
    (some ⟨none, none, none, some "2026-10-12", true, true⟩) ⟨none, none, none⟩ (by decide)

/-- C9 counterexample: a non-admin user with no stored row (no prior `/start`)
who sends `"Task 1"` enters `choose_task`, where the status lookup finds no row
and the handler fails — entering the task-submission flow does fail for lack of
a stored User. -/
theorem task_entry_without_row_fails_cex :
    choose_task ADMIN_IDS "2026-10-12" 1 "Task 1" none ⟨none, none, none⟩ = .error () := rfl

/-- C9 (amended): a User row is created idempotently (create-if-absent) at the
registration flow entry `/start` only; the task-submission flow entry performs
no create-if-absent, so for a non-admin user with no stored row the status
lookup finds nothing and the handler fails. -/
theorem user_row_created_at_start_only (store : Option User) :
    (start store).1 = some (store.getD defaultUser) ∧
    create_user (create_user store) = create_user store ∧
    (∀ u : User, create_user (some u) = some u) ∧
    (∀ (today task : String) (user_id : Nat) (d : Draft), user_id ∉ ADMIN_IDS →
       choose_task ADMIN_IDS today user_id task none d = .error ()) := by
  refine ⟨rfl, rfl, fun u => rfl, fun today task user_id d h => ?_⟩
  simp [choose_task, h]

/-- Witness for C9's amended claim at a concrete non-admin identity. -/
theorem user_row_created_at_start_only_witness :
    choose_task ADMIN_IDS "2026-10-12" 2 "Task 2" none ⟨none, none, none⟩ = .error () :=
  (user_row_created_at_start_only none).2.2.2 "2026-10-12" "Task 2" 2 ⟨none, none, none⟩ (by decide)

/-- C1 counterexample: with an always-failing evaluation collaborator the
confirmed answer for `"Task 1"` yields the retry-exhaustion error text, yet the
`task1_submitted` flag is still set — a failed evaluation does consume the
daily quota. -/
theorem failed_evaluation_consumes_quota_cex :
    (confirm_answer (fun _ _ => none) "confirm_a_yes"
        ⟨some "Task 1", some "Q", some "A"⟩ defaultUser).2.2 = some apologyText ∧
    (confirm_answer (fun _ _ => none) "confirm_a_yes"
        ⟨some "Task 1", some "Q", some "A"⟩ defaultUser).1.task1_submitted = true :=
  ⟨rfl, rfl⟩

/-- C1 (amended): on a confirmed answer, `update_task_submission` is called
after every evaluation outcome — including the retry-exhaustion error text — so
the task flag is always set and a failed evaluation consumes the daily quota. -/
theorem confirm_answer_marks_submitted_always (gen : String → Nat → Option String)
    (data : String) (d : Draft) (u : User) (h : data ≠ "confirm_a_no") :
    (d.task.getD "Unknown" = "Task 1" →
       (confirm_answer gen data d u).1.task1_submitted = true) ∧
    (d.task.getD "Unknown" ≠ "Task 1" →
       (confirm_answer gen data d u).1.task2_submitted = true) ∧
    (confirm_answer gen data d u).2.1 = .END ∧
    ((∀ n, gen (buildPrompt (d.question.getD "") (d.answer.getD "")) n = none) →
       (confirm_answer gen data d u).2.2 = some apologyText) := by
  have hb : (data == "confirm_a_no") = false := beq_eq_false_iff_ne.mpr h
  refine ⟨fun ht => ?_, fun ht => ?_, ?_, fun hfail => ?_⟩
  · have hb2 : (d.task.getD "Unknown" == "Task 1") = true := beq_iff_eq.mpr ht
    simp [confirm_answer, hb, update_task_submission, hb2]
  · have hb2 : (d.task.getD "Unknown" == "Task 1") = false := beq_eq_false_iff_ne.mpr ht
    simp [confirm_answer, hb, update_task_submission, hb2]
  · simp [confirm_answer, hb]
  · simp [confirm_answer, hb, evaluate_with_gemini, evalAttempts_0_3,
      hfail 0, hfail 1, hfail 2]

/-- Witness for C1's amended claim: confirmed `"Task 2"` submission with a
collaborator that always fails still sets `task2_submitted`. -/
theorem confirm_answer_marks_submitted_always_witness :
    (confirm_answer (fun _ _ => none) "confirm_a_yes"
        ⟨some "Task 2", none, none⟩ defaultUser).1.task2_submitted = true ∧
    (confirm_answer (fun _ _ => none) "confirm_a_yes"
        ⟨some "Task 2", none, none⟩ defaultUser).2.2 = some apologyText := by
  have h := confirm_answer_marks_submitted_always (fun _ _ => none) "confirm_a_yes"
    ⟨some "Task 2", none, none⟩ defaultUser (by decide)
  exact ⟨h.2.1 (by decide), h.2.2.2 (fun n => rfl)⟩

/-- C7 counterexample: when the OCR call raises, `os.remove` is never reached,
so the downloaded answer image stays on disk; a question image is downloaded
and never deleted at all — the transient payload is not discarded regardless of
outcome. -/
theorem transient_image_not_discarded_cex :
    extract_text_from_image none ["a_1.jpg"] "a_1.jpg" = (none, ["a_1.jpg"]) ∧
    "a_1.jpg" ∈ (extract_text_from_image none ["a_1.jpg"] "a_1.jpg").2 ∧
    (get_question 1 .photo [] ⟨none, none, none⟩).2.2 = ["q_1.jpg"] :=
  ⟨rfl, by decide, rfl⟩

/-- C7 (amended): the downloaded answer image is deleted exactly when
extraction succeeds; on extraction failure the file remains on disk, and
question images are downloaded but never deleted. -/
theorem image_discarded_only_on_success (t : String) (fs : List String) (p : String)
    (user_id : Nat) (d : Draft) :
    extract_text_from_image (some t) fs p = (some t, fs.erase p) ∧
    extract_text_from_image none fs p = (none, fs) ∧
    (get_answer user_id .photo (some t) fs d).2.2 = fs ∧
    (get_answer user_id .photo none fs d).2.2 = aPath user_id :: fs ∧
    (get_question user_id .photo fs d).2.2 = qPath user_id :: fs := by
  refine ⟨rfl, rfl, ?_, rfl, rfl⟩
  rcases eq_or_ne t "" with ht | ht <;>
    simp [get_answer, extract_text_from_image, List.erase_cons_head, ht]

/-- C3: for every collaborator behavior, `evaluate_with_gemini` makes at most 3
calls; a call that succeeds at loop index 0, 1 or 2 returns the (truncated)
success text with exactly as many warnings and 2-second sleeps as there were
prior failures, and three failures return the fixed apology after exactly 3
calls, 3 warnings and 3 sleeps. -/
theorem evaluate_retry_policy (gen : String → Nat → Option String)
    (task_type question answer : String) :
    (evaluate_with_gemini gen task_type question answer).calls ≤ 3 ∧
    (∀ t, gen (buildPrompt question answer) 0 = some t →
       evaluate_with_gemini gen task_type question answer =
         { result := pyTake t 4000, calls := 1, warnings := 0, sleepSeconds := 0 }) ∧
    (∀ t, gen (buildPrompt question answer) 0 = none →
       gen (buildPrompt question answer) 1 = some t →
       evaluate_with_gemini gen task_type question answer =
         { result := pyTake t 4000, calls := 2, warnings := 1, sleepSeconds := 2 }) ∧
    (∀ t, gen (buildPrompt question answer) 0 = none →
       gen (buildPrompt question answer) 1 = none →
       gen (buildPrompt question answer) 2 = some t →
       evaluate_with_gemini gen task_type question answer =
         { result := pyTake t 4000, calls := 3, warnings := 2, sleepSeconds := 4 }) ∧
    (gen (buildPrompt question answer) 0 = none →
       gen (buildPrompt question answer) 1 = none →
       gen (buildPrompt question answer) 2 = none →
       evaluate_with_gemini gen task_type question answer =
         { result := apologyText, calls := 3, warnings := 3, sleepSeconds := 6 }) := by
  unfold evaluate_with_gemini
  rw [evalAttempts_0_3]
  refine ⟨?_, fun t h0 => by simp [h0], fun t h0 h1 => by simp [h0, h1],
    fun t h0 h1 h2 => by simp [h0, h1, h2], fun h0 h1 h2 => by simp [h0, h1, h2]⟩
  cases h0 : gen (buildPrompt question answer) 0 <;>
    cases h1 : gen (buildPrompt question answer) 1 <;>
      cases h2 : gen (buildPrompt question answer) 2 <;> simp [h0, h1, h2]

/-- Witness for C3: a collaborator failing exactly twice then succeeding yields
the success text with 2 warnings after 3 calls. -/
theorem evaluate_retry_policy_witness :
    evaluate_with_gemini (fun _ n => if n < 2 then none else some "ok") "Task 1" "Q" "A" =
      { result := pyTake "ok" 4000, calls := 3, warnings := 2, sleepSeconds := 4 } :=
  (evaluate_retry_policy (fun _ n => if n < 2 then none else some "ok")
    "Task 1" "Q" "A").2.2.2.1 "ok" rfl rfl rfl

/-- C4: the text returned by `evaluate_with_gemini` always has length at most
4000, and on a successful call it is exactly the collaborator's result
truncated to the first 4000 characters. -/
theorem evaluate_result_truncated (gen : String → Nat → Option String)
    (task_type question answer : String) :
    (evaluate_with_gemini gen task_type question answer).result.length ≤ 4000 ∧
    (∀ t, gen (buildPrompt question answer) 0 = some t →
       (evaluate_with_gemini gen task_type question answer).result = pyTake t 4000) ∧
    (∀ t, gen (buildPrompt question answer) 0 = none →
       gen (buildPrompt question answer) 1 = some t →
       (evaluate_with_gemini gen task_type question answer).result = pyTake t 4000) ∧
    (∀ t, gen (buildPrompt question answer) 0 = none →
       gen (buildPrompt question answer) 1 = none →
       gen (buildPrompt question answer) 2 = some t →
       (evaluate_with_gemini gen task_type question answer).result = pyTake t 4000) ∧
    (∀ s : String, (pyTake s 4000).length ≤ 4000) := by
  have htake : ∀ s : String, (pyTake s 4000).length ≤ 4000 := by
    intro s
    show (s.data.take 4000).length ≤ 4000
    rw [List.length_take]
    exact Nat.min_le_left _ _
  have hapology : apologyText.length ≤ 4000 := by decide
  unfold evaluate_with_gemini
  rw [evalAttempts_0_3]
  refine ⟨?_, fun t h0 => by simp [h0], fun t h0 h1 => by simp [h0, h1],
    fun t h0 h1 h2 => by simp [h0, h1, h2], htake⟩
  cases h0 : gen (buildPrompt question answer) 0 <;>
    cases h1 : gen (buildPrompt question answer) 1 <;>
      cases h2 : gen (buildPrompt question answer) 2 <;>
        simp [h0, h1, h2, htake, hapology]

/-- Witness for C4: a first-call success is delivered truncated. -/
theorem evaluate_result_truncated_witness :
    (evaluate_with_gemini (fun _ _ => some "hello") "Task 1" "Q" "A").result =
      pyTake "hello" 4000 :=
  (evaluate_result_truncated (fun _ _ => some "hello") "Task 1" "Q" "A").2.1 "hello" rfl

/-- C8: input resolution strips whitespace and is empty exactly when the
stripped string is empty: on whitespace-only text the awaiting state
(`QUESTION` or `ANSWER`) re-prompts in place with no transition and no draft
stored; on text whose stripped form is non-empty the stripped string is stored
unchanged and the flow advances. -/
theorem resolve_trims_and_rejects_empty (text : String) (d : Draft)
    (user_id : Nat) (fs : List String) :
    ((∀ c ∈ text.data, c.isWhitespace) →
       get_question user_id (.text text) fs d = (d, .QUESTION, fs) ∧
       get_answer user_id (.text text) none fs d = (d, .ANSWER, fs)) ∧
    (pyStrip text ≠ "" →
       get_question user_id (.text text) fs d =
         ({ d with question := some (pyStrip text) }, .ANSWER, fs) ∧
       get_answer user_id (.text text) none fs d =
         ({ d with answer := some (pyStrip text) }, .CONFIRM_A, fs)) ∧
    (pyStrip text = "" ↔ ∀ c ∈ text.data, c.isWhitespace) := by
  refine ⟨fun h => ?_, fun h => ?_, pyStrip_eq_empty_iff text⟩
  · have he : pyStrip text = "" := (pyStrip_eq_empty_iff text).mpr h
    exact ⟨by simp [get_question, he], by simp [get_answer, he]⟩
  · exact ⟨by simp [get_question, h], by simp [get_answer, h]⟩

/-- Witness for C8: `"  hi  "` resolves to the stripped draft text and
advances, exercising the non-empty branch. -/
theorem resolve_trims_and_rejects_empty_witness :
    get_question 1 (.text "  hi  ") [] ⟨none, none, none⟩ =
      ({ task := none, question := some (pyStrip "  hi  "), answer := none }, .ANSWER, []) ∧
    get_answer 1 (.text "  hi  ") none [] ⟨none, none, none⟩ =
      ({ task := none, question := none, answer := some (pyStrip "  hi  ") }, .CONFIRM_A, []) :=
  (resolve_trims_and_rejects_empty "  hi  " ⟨none, none, none⟩ 1 []).2.1 (by decide)

/-- ASCII digit characters compare like their digits. -/
theorem digitChar_lt_iff : ∀ a : Nat, a < 10 → ∀ b : Nat, b < 10 →
    ((digitChar a < digitChar b) ↔ a < b) := by decide

/-- ASCII digit characters are equal exactly when their digits are. -/
theorem digitChar_inj_iff : ∀ a : Nat, a < 10 → ∀ b : Nat, b < 10 →
    ((digitChar a = digitChar b) ↔ a = b) := by decide

/-- Comparison of two-character lists, unfolded. -/
theorem pyStrLtChars_pair (a b c e : Char) :
    pyStrLtChars [a, b] [c, e] =
      if a = c then (if b = e then false else decide (b < e)) else decide (a < c) := by
  by_cases h1 : a = c <;> by_cases h2 : b = e <;> simp [pyStrLtChars, h1, h2]

/-- Two-digit zero-padded blocks are equal exactly when the numbers are. -/
theorem d2_inj_iff (m1 m2 : Nat) (h1 : m1 < 100) (h2 : m2 < 100) :
    d2 m1 = d2 m2 ↔ m1 = m2 := by
  unfold d2
  simp only [List.cons.injEq, and_true]
  rw [digitChar_inj_iff _ (by omega) _ (by omega),
      digitChar_inj_iff _ (by omega) _ (by omega)]
  omega

/-- Two-digit zero-padded blocks compare lexicographically like the numbers. -/
theorem d2_lt_eq (m1 m2 : Nat) (h1 : m1 < 100) (h2 : m2 < 100) :
    pyStrLtChars (d2 m1) (d2 m2) = decide (m1 < m2) := by
  unfold d2
  rw [pyStrLtChars_pair]
  by_cases hhi : m1 / 10 % 10 = m2 / 10 % 10
  · rw [if_pos (by rw [hhi])]
    by_cases hlo : m1 % 10 = m2 % 10
    · rw [if_pos (by rw [hlo])]
      have hm : ¬ m1 < m2 := by omega
      rw [decide_eq_false hm]
    · have hne : digitChar (m1 % 10) ≠ digitChar (m2 % 10) := fun hcc =>
        hlo ((digitChar_inj_iff _ (by omega) _ (by omega)).mp hcc)
      rw [if_neg hne]
      have hit := digitChar_lt_iff (m1 % 10) (by omega) (m2 % 10) (by omega)
      rcases Nat.lt_or_ge (m1 % 10) (m2 % 10) with h | h
      · rw [decide_eq_true (hit.mpr h), decide_eq_true (by omega : m1 < m2)]
      · have hc : ¬ digitChar (m1 % 10) < digitChar (m2 % 10) := fun hx => by
          have := hit.mp hx; omega
        rw [decide_eq_false hc, decide_eq_false (by omega : ¬ m1 < m2)]
  · have hne : digitChar (m1 / 10 % 10) ≠ digitChar (m2 / 10 % 10) := fun hcc =>
      hhi ((digitChar_inj_iff _ (by omega) _ (by omega)).mp hcc)
    rw [if_neg hne]
    have hit := digitChar_lt_iff (m1 / 10 % 10) (by omega) (m2 / 10 % 10) (by omega)
    rcases Nat.lt_or_ge (m1 / 10 % 10) (m2 / 10 % 10) with h | h
    · rw [decide_eq_true (hit.mpr h), decide_eq_true (by omega : m1 < m2)]
    · have hc : ¬ digitChar (m1 / 10 % 10) < digitChar (m2 / 10 % 10) := fun hx => by
        have := hit.mp hx; omega
      rw [decide_eq_false hc, decide_eq_false (by omega : ¬ m1 < m2)]

/-- Splitting a lexicographic comparison at an equal-length prefix. -/
theorem pyStrLtChars_append (xs : List Char) : ∀ (xs' ys ys' : List Char),
    xs.length = xs'.length →
    pyStrLtChars (xs ++ ys) (xs' ++ ys') =
      if xs = xs' then pyStrLtChars ys ys' else pyStrLtChars xs xs' := by
  induction xs with
  | nil =>
    intro xs' ys ys' h
    cases xs' with
    | nil => simp
    | cons b bs => simp at h
  | cons a as ih =>
    intro xs' ys ys' h
    cases xs' with
    | nil => simp at h
    | cons b bs =>
      have hlen : as.length = bs.length := by simpa using h
      by_cases hab : a = b
      · subst hab
        rw [List.cons_append, List.cons_append,
          show pyStrLtChars (a :: (as ++ ys)) (a :: (bs ++ ys')) =
            pyStrLtChars (as ++ ys) (bs ++ ys') from by simp [pyStrLtChars]]
        rw [ih bs ys ys' hlen]
        by_cases hasbs : as = bs
        · subst hasbs
          rw [if_pos rfl, if_pos rfl]
        · rw [if_neg hasbs, if_neg (show ¬ (a :: as = a :: bs) from by simp [hasbs])]
          rw [show pyStrLtChars (a :: as) (a :: bs) = pyStrLtChars as bs from by
            simp [pyStrLtChars]]
      · rw [List.cons_append, List.cons_append,
          show pyStrLtChars (a :: (as ++ ys)) (b :: (bs ++ ys')) = decide (a < b) from by
            simp [pyStrLtChars, hab]]
        rw [if_neg (show ¬ (a :: as = b :: bs) from by simp [hab])]
        rw [show pyStrLtChars (a :: as) (b :: bs) = decide (a < b) from by
          simp [pyStrLtChars, hab]]

/-- The `%Y-%m-%d` characters split into padded blocks. -/
theorem isoChars_decomp (a : UtcDate) :
    a.isoChars = d2 (a.year / 100) ++ (d2 (a.year % 100) ++
      ('-' :: (d2 a.month ++ ('-' :: d2 a.day)))) := by
  unfold UtcDate.isoChars d2
  have e1 : a.year / 100 / 10 % 10 = a.year / 1000 % 10 := by omega
  have e3 : a.year % 100 / 10 % 10 = a.year / 10 % 10 := by omega
  have e4 : a.year % 100 % 10 = a.year % 10 := by omega
  simp [e1, e3, e4]

/-- Python string comparison of two `%Y-%m-%d` renderings coincides with
calendar order, for dates in the zero-padded ranges. -/
theorem pyStrLt_iso_iff (a b : UtcDate) (ha : a.validBounds) (hb : b.validBounds) :
    pyStrLt a.iso b.iso = true ↔ a.earlier b := by
  obtain ⟨hay, ham1, ham2, had1, had2⟩ := ha
  obtain ⟨hby, hbm1, hbm2, hbd1, hbd2⟩ := hb
  show pyStrLtChars a.isoChars b.isoChars = true ↔ a.earlier b
  rw [isoChars_decomp a, isoChars_decomp b]
  rw [pyStrLtChars_append _ _ _ _ (by simp [d2])]
  by_cases h1 : a.year / 100 = b.year / 100
  · rw [if_pos ((d2_inj_iff _ _ (by omega) (by omega)).mpr h1)]
    rw [pyStrLtChars_append _ _ _ _ (by simp [d2])]
    by_cases h2 : a.year % 100 = b.year % 100
    · rw [if_pos ((d2_inj_iff _ _ (by omega) (by omega)).mpr h2)]
      rw [show pyStrLtChars ('-' :: (d2 a.month ++ ('-' :: d2 a.day)))
            ('-' :: (d2 b.month ++ ('-' :: d2 b.day))) =
          pyStrLtChars (d2 a.month ++ ('-' :: d2 a.day))
            (d2 b.month ++ ('-' :: d2 b.day)) from by simp [pyStrLtChars]]
      rw [pyStrLtChars_append _ _ _ _ (by simp [d2])]
      by_cases h3 : a.month = b.month
      · rw [if_pos ((d2_inj_iff _ _ (by omega) (by omega)).mpr h3)]
        rw [show pyStrLtChars ('-' :: d2 a.day) ('-' :: d2 b.day) =
            pyStrLtChars (d2 a.day) (d2 b.day) from by simp [pyStrLtChars]]
        rw [d2_lt_eq _ _ (by omega) (by omega)]
        unfold UtcDate.earlier
        simp only [decide_eq_true_eq]
        omega
      · rw [if_neg (fun hcc => h3 ((d2_inj_iff _ _ (by omega) (by omega)).mp hcc))]
        rw [d2_lt_eq _ _ (by omega) (by omega)]
        unfold UtcDate.earlier
        simp only [decide_eq_true_eq]
        omega
    · rw [if_neg (fun hcc => h2 ((d2_inj_iff _ _ (by omega) (by omega)).mp hcc))]
      rw [d2_lt_eq _ _ (by omega) (by omega)]
      unfold UtcDate.earlier
      simp only [decide_eq_true_eq]
      omega
  · rw [if_neg (fun hcc => h1 ((d2_inj_iff _ _ (by omega) (by omega)).mp hcc))]
    rw [d2_lt_eq _ _ (by omega) (by omega)]
    unfold UtcDate.earlier
    simp only [decide_eq_true_eq]
    omega

/-- C2: `reset_limits_if_needed` compares the stored date to the current UTC
calendar date and, exactly when the stored date is unset or strictly earlier
than today, sets the stored date to today and clears both task flags; hence
the quota check immediately after freshening on a new UTC day passes for every
task type regardless of the prior day's flags. -/
theorem quota_reset_on_new_day (today stored : UtcDate) (ht : today.validBounds)
    (hs : stored.validBounds) (u : User) :
    (u.last_submission_date = some stored.iso →
       reset_limits_if_needed today.iso u =
         if stored.earlier today then
           { u with last_submission_date := some today.iso,
                    task1_submitted := false, task2_submitted := false }
         else u) ∧
    (u.last_submission_date = none →
       reset_limits_if_needed today.iso u =
         { u with last_submission_date := some today.iso,
                  task1_submitted := false, task2_submitted := false }) ∧
    (u.last_submission_date = some stored.iso → stored.earlier today →
       ∀ task : String, can_submit task (reset_limits_if_needed today.iso u) = true) := by
  have hbeq : (stored.iso == "") = false := beq_eq_false_iff_ne.mpr (by
    intro hcc
    have hdata := congrArg String.data hcc
    simp [UtcDate.iso, UtcDate.isoChars] at hdata)
  refine ⟨fun hlast => ?_, fun hlast => ?_, fun hlast hearly => ?_⟩
  · by_cases he : stored.earlier today
    · have hlt : pyStrLt stored.iso today.iso = true := (pyStrLt_iso_iff _ _ hs ht).mpr he
      rw [if_pos he]
      simp [reset_limits_if_needed, needsReset, hlast, hbeq, hlt]
    · have hlt : pyStrLt stored.iso today.iso = false := by
        cases hfb : pyStrLt stored.iso today.iso with
        | false => rfl
        | true => exact absurd ((pyStrLt_iso_iff _ _ hs ht).mp hfb) he
      rw [if_neg he]
      simp [reset_limits_if_needed, needsReset, hlast, hbeq, hlt]
  · simp [reset_limits_if_needed, needsReset, hlast]
  · have hlt : pyStrLt stored.iso today.iso = true := (pyStrLt_iso_iff _ _ hs ht).mpr hearly
    intro task
    simp [reset_limits_if_needed, needsReset, hlast, hbeq, hlt, can_submit]

/-- Witness for C2: a user who submitted both tasks on 2026-10-11 can submit
again after freshening on 2026-10-12. -/
theorem quota_reset_on_new_day_witness :
    can_submit "Task 1" (reset_limits_if_needed (UtcDate.iso ⟨2026, 10, 12⟩)
      { full_name := none, phone_number := none, region := none,
        last_submission_date := some (UtcDate.iso ⟨2026, 10, 11⟩),
        task1_submitted := true, task2_submitted := true }) = true :=
  (quota_reset_on_new_day ⟨2026, 10, 12⟩ ⟨2026, 10, 11⟩ (by decide) (by decide)
      { full_name := none, phone_number := none, region := none,
        last_submission_date := some (UtcDate.iso ⟨2026, 10, 11⟩),
        task1_submitted := true, task2_submitted := true }).2.2 rfl (by decide) "Task 1"
